import Mathlib

/-!
Verification of the budget aggregator of a personal-finance web application.

The embedding follows `src/app/actions/budgets.ts` (server actions over a
relational datastore) and the two client-side total computations in
`src/components/budgets/budget-dashboard.tsx` and
`src/components/budgets/budget-menu.tsx`.

Conventions of the embedding:
* A JavaScript number field that may be missing or non-numeric is an
  `Option Int`; the JS idiom `x || 0` becomes `Option.getD 0` (a missing,
  null or NaN amount contributes 0, as does a literal 0).
* JS `undefined`/`null` on an optional string field is `none`; where the
  distinction between an absent key and an explicit `null` matters (the
  `end_date` field of an update patch) the field is an `Option (Option String)`.
* Fallible async calls return `Except`; the datastore is a small state
  machine executed synchronously, recording the request trace.
-/

/-- Category tree, from `BudgetCategory` in `src/app/actions/budgets.ts`
(`id`, `name`, `amount`, optional `color`, recursive `subcategories`).
`amount` is `Option Int`: `none` models a missing or non-numeric JSON value. -/
inductive BudgetCategory : Type where
  | mk (id : String) (name : String) (amount : Option Int)
       (color : Option String) (subcategories : List BudgetCategory)

/-- The `amount` field of a category. -/
def BudgetCategory.amount : BudgetCategory → Option Int
  | .mk _ _ a _ _ => a

/-- The `subcategories` field of a category. -/
def BudgetCategory.subcategories : BudgetCategory → List BudgetCategory
  | .mk _ _ _ _ s => s

/-- Server-side `calculateTotalAllocated` from `src/app/actions/budgets.ts`
lines 259-269: iterate over the list; a category with non-empty
`subcategories` contributes the recursive total of its subcategories (its
own `amount` is not added), otherwise it contributes `amount || 0`. -/
def calculateTotalAllocated : List BudgetCategory → Int
  | [] => 0
  | .mk _ _ amt _ subs :: rest =>
      (if subs.length > 0 then calculateTotalAllocated subs else amt.getD 0)
        + calculateTotalAllocated rest

/-- Client-side total of `BudgetDetails` in
`src/components/budgets/budget-dashboard.tsx` lines 232-244: adds
`category.amount || 0` for EVERY node and additionally recurses into
non-empty `subcategories`. -/
def dashboardCalculateTotal : List BudgetCategory → Int
  | [] => 0
  | .mk _ _ amt _ subs :: rest =>
      amt.getD 0
        + (if subs.length > 0 then dashboardCalculateTotal subs else 0)
        + dashboardCalculateTotal rest

/-- Client-side `calculateTotalAllocated` from
`src/components/budgets/budget-menu.tsx` lines 354-361 (a `reduce` with the
same branch structure as the server version). -/
def menuCalculateTotalAllocated : List BudgetCategory → Int
  | [] => 0
  | .mk _ _ amt _ subs :: rest =>
      (if subs.length > 0 then menuCalculateTotalAllocated subs
       else amt.getD 0)
        + menuCalculateTotalAllocated rest

mutual
/-- Effective allocation of one category, following the wording of the
data-model invariant in the specification: the sum of the subcategories'
effective allocations when `subcategories` is non-empty, else the node's
own `amount` (missing/non-numeric read as 0). -/
def specEffectiveAllocation : BudgetCategory → Int
  | .mk _ _ amt _ subs =>
      if subs.length > 0 then specEffectiveSum subs else amt.getD 0

/-- Sum of effective allocations of a list of categories (spec wording). -/
def specEffectiveSum : List BudgetCategory → Int
  | [] => 0
  | c :: cs => specEffectiveAllocation c + specEffectiveSum cs
end

/-! ## Datastore collaborator model -/

/-- A datastore-level error as surfaced by the PostgREST client:
an error `code` and a human-readable `message`. -/
structure PgError where
  code : String
  message : String

/-- A row of the `budgets` table. `end_date` is `Option String` so that the
never-stored-as-null invariant is a provable property rather than a typing
assumption; `categories` is `Option` because the JSONB column may be null
or absent from the schema. -/
structure StoredBudget where
  id : String
  user_id : String
  name : String
  amount : Int
  start_date : String
  end_date : Option String
  categories : Option (List BudgetCategory)

/-- A row as returned to the application by a select/insert/update
(the `user_id` column is not part of the selected shape the code consumes;
`categories` is `none` when the column was not selected or is null). -/
structure BudgetRow where
  id : String
  name : String
  amount : Int
  start_date : String
  end_date : Option String
  categories : Option (List BudgetCategory)

/-- Payload of an insert request, mirroring the `insertData` object built by
`createBudget` (spread of the input minus `total_allocated`, plus `user_id`).
The `total_allocated` field is carried so that its absence from every issued
request is a provable property. `categories = none` means the key is absent
(the schema-fallback retry). -/
structure InsertPayload where
  user_id : String
  name : String
  amount : Int
  start_date : Option String
  end_date : Option String
  categories : Option (List BudgetCategory)
  total_allocated : Option Int

/-- Payload of an update request, mirroring the `updateData` object built by
`updateBudget`. For each field, `none` means the key is absent (column left
untouched). `end_date` distinguishes an absent key (`none`), an explicit
null (`some none`) and a string (`some (some s)`). -/
structure UpdatePatch where
  name : Option String
  amount : Option Int
  start_date : Option String
  end_date : Option (Option String)
  categories : Option (List BudgetCategory)
  total_allocated : Option Int

/-- A request issued to the datastore. -/
inductive DbReq where
  | selectBudgets (userId : String) (withCategories : Bool)
  | selectById (id : String) (userId : String)
  | insert (payload : InsertPayload)
  | update (id : String) (userId : String) (patch : UpdatePatch)
  | delete (id : String) (userId : String)

/-- Whether a request writes to the datastore. -/
def DbReq.isWrite : DbReq → Bool
  | .insert _ => true
  | .update _ _ _ => true
  | .delete _ _ => true
  | _ => false

/-- The `total_allocated` field carried by a write request's payload
(`none` for reads). -/
def DbReq.payloadTotalAllocated : DbReq → Option Int
  | .insert p => p.total_allocated
  | .update _ _ p => p.total_allocated
  | _ => none

/-- Mock datastore state: the stored rows, whether the optional JSONB
`categories` column exists in the schema, a counter for server-assigned ids,
and an error-injection script (one entry consumed per request; `some e`
forces that request to fail with `e`, `none` lets it behave normally). -/
structure DB where
  rows : List StoredBudget
  hasCategoriesColumn : Bool
  nextId : Nat
  script : List (Option PgError)

/-- Pop the next injected outcome off the script. -/
def consumeScript (db : DB) : Option PgError × DB :=
  match db.script with
  | [] => (none, db)
  | e :: rest => (e, { db with script := rest })

/-- Project a stored row to the returned shape. -/
def StoredBudget.toRow (withCategories : Bool) (r : StoredBudget) : BudgetRow :=
  { id := r.id, name := r.name, amount := r.amount,
    start_date := r.start_date, end_date := r.end_date,
    categories := if withCategories then r.categories else none }

/-- Insert a row into a list sorted by `start_date` descending. -/
def sortedInsertDesc (r : StoredBudget) : List StoredBudget → List StoredBudget
  | [] => [r]
  | x :: xs =>
      if x.start_date < r.start_date then r :: x :: xs
      else x :: sortedInsertDesc r xs

/-- Sort rows by `start_date` descending (the `.order` clause of the list
query). -/
def sortByStartDateDesc (rs : List StoredBudget) : List StoredBudget :=
  rs.foldr sortedInsertDesc []

/-- The zero-or-many-rows error `.single()` reports. -/
def pgrst116 : PgError :=
  { code := "PGRST116",
    message := "JSON object requested, multiple (or no) rows returned" }

/-- The missing-column error for a select list. -/
def errUndefinedColumn : PgError :=
  { code := "42703", message := "column budgets.categories does not exist" }

/-- The missing-column error PostgREST reports for a write payload. -/
def errSchemaCache : PgError :=
  { code := "PGRST204",
    message := "Could not find the categories column of budgets in the schema cache" }

/-- The not-null-constraint violation on `end_date`. -/
def errNotNull : PgError :=
  { code := "23502",
    message := "null value in column end_date violates not-null constraint" }

/-- Apply an update patch to one row: present fields overwrite, absent
fields are untouched; a present-null `end_date` stores null. -/
def applyPatch (r : StoredBudget) (p : UpdatePatch) : StoredBudget :=
  { r with
    name := p.name.getD r.name,
    amount := p.amount.getD r.amount,
    start_date := p.start_date.getD r.start_date,
    end_date := match p.end_date with | none => r.end_date | some v => v,
    categories := match p.categories with | none => r.categories | some cs => some cs }

/-- Modelled from the spec: the relational datastore collaborator (spec
section 6), which is not part of `src/` — PostgREST semantics for select /
insert / update / delete on the `budgets` table, filterable by owner, with
an optional `categories` column whose absence is reported as a
missing-column error; a single-row read or returning write reports
`PGRST116` when it does not match exactly one row; the `budgets` schema
itself is also absent from `src/`, and its not-null constraint on
`end_date` follows the spec invariant (end_date is never stored as null)
and the source comment at lines 125 and 183. Requests consume the
error-injection script first, so arbitrary datastore failures can be
modelled. -/
def dbExecCore (db1 : DB) (req : DbReq) : Except PgError (List BudgetRow) × DB :=
  match req with
    | .selectBudgets userId withCats =>
        if withCats && !db1.hasCategoriesColumn then
          (.error errUndefinedColumn, db1)
        else
          (.ok ((sortByStartDateDesc (db1.rows.filter
                  (fun r => r.user_id == userId))).map
                (StoredBudget.toRow (withCats && db1.hasCategoriesColumn))),
           db1)
    | .selectById id userId =>
        match db1.rows.filter (fun r => r.id == id && r.user_id == userId) with
        | [r] => (.ok [StoredBudget.toRow db1.hasCategoriesColumn r], db1)
        | _ => (.error pgrst116, db1)
    | .insert p =>
        if p.categories.isSome && !db1.hasCategoriesColumn then
          (.error errSchemaCache, db1)
        else
          match p.start_date, p.end_date with
          | some s, some e =>
              let newRow : StoredBudget :=
                { id := "b" ++ toString db1.nextId, user_id := p.user_id,
                  name := p.name, amount := p.amount, start_date := s,
                  end_date := some e,
                  categories := if db1.hasCategoriesColumn then p.categories else none }
              (.ok [StoredBudget.toRow db1.hasCategoriesColumn newRow],
               { db1 with rows := db1.rows ++ [newRow], nextId := db1.nextId + 1 })
          | _, _ => (.error errNotNull, db1)
    | .update id userId patch =>
        if patch.categories.isSome && !db1.hasCategoriesColumn then
          (.error errSchemaCache, db1)
        else
          let hits := db1.rows.filter (fun r => r.id == id && r.user_id == userId)
          if patch.end_date == some none && !hits.isEmpty then
            (.error errNotNull, db1)
          else
            let rows2 := db1.rows.map (fun r =>
              if r.id == id && r.user_id == userId then applyPatch r patch else r)
            match hits with
            | [r] => (.ok [StoredBudget.toRow db1.hasCategoriesColumn
                       (applyPatch r patch)], { db1 with rows := rows2 })
            | _ => (.error pgrst116, { db1 with rows := rows2 })
    | .delete id userId =>
        let rows2 := db1.rows.filter (fun r => !(r.id == id && r.user_id == userId))
        (.ok [], { db1 with rows := rows2 })

/-- One datastore request: consume the injection script, fail if an error
was injected, otherwise run the request against the state. -/
def dbExec (db : DB) (req : DbReq) : Except PgError (List BudgetRow) × DB :=
  let sc := consumeScript db
  match sc.1 with
  | some e => (.error e, sc.2)
  | none => dbExecCore sc.2 req

/-! ## Application layer: the server actions of `src/app/actions/budgets.ts` -/

/-- Request context: whether `createServerSupabaseClient` succeeds, and the
owner `getAuthenticatedUser` resolves (`none` = no authenticated owner). -/
structure Env where
  clientOk : Bool
  user : Option String

/-- Application-level failure. The source throws plain `Error`s; the
constructors classify its distinct throw sites: `clientError` for the
missing-client throws, `authError` for the `Authentication required`
throws, `validationError` for the start-date checks, `storageError` for
the wraps of a datastore error message. -/
inductive AppError where
  | clientError (msg : String)
  | authError (msg : String)
  | validationError (msg : String)
  | storageError (msg : String)

/-- The `Budget` value the read operations return (`total_allocated` is the
optional computed annotation; `categories` is `Option` because
`getBudgetById` passes the row's possibly-null column through unchanged). -/
structure Budget where
  id : String
  name : String
  amount : Int
  start_date : String
  end_date : Option String
  categories : Option (List BudgetCategory)
  total_allocated : Option Int

/-- Result of the `delete` action (`return { success: true }`). -/
structure DeleteResult where
  success : Bool

/-- Outcome of one server action: the returned value or error, the
datastore state afterwards, and the trace of requests issued. -/
structure OpResult (α : Type) where
  result : Except AppError α
  db : DB
  trace : List DbReq

/-- Input to `createBudget` (`Omit<Budget, id | total_allocated>` possibly
still carrying a transient `total_allocated`, as the source's
`as any` destructuring anticipates). `start_date = none` models a missing
field; `end_date` distinguishes absent (`none`), explicit null
(`some none`) and a string. -/
structure CreateInput where
  name : String
  amount : Int
  start_date : Option String
  end_date : Option (Option String)
  categories : List BudgetCategory
  total_allocated : Option Int

/-- Input to `updateBudget` (`Partial` of the create input): every field
may be absent. -/
structure UpdateInput where
  name : Option String
  amount : Option Int
  start_date : Option String
  end_date : Option (Option String)
  categories : Option (List BudgetCategory)
  total_allocated : Option Int

/-- The listing normalization `getBudgets` applies to each fetched row:
`categories: budget.categories || []` and the computed
`total_allocated`. -/
def rowToListedBudget (row : BudgetRow) : Budget :=
  { id := row.id, name := row.name, amount := row.amount,
    start_date := row.start_date, end_date := row.end_date,
    categories := some (row.categories.getD []),
    total_allocated := some (calculateTotalAllocated (row.categories.getD [])) }

/-- `getBudgets` (lines 36-75): returns `[]` when the client or the
authenticated user is missing; selects the user's budgets including
`categories`, retrying once without that column on error code 42703;
any remaining error is thrown wrapped; rows are annotated with the
computed total. -/
def getBudgets (env : Env) (db : DB) : OpResult (List Budget) :=
  if !env.clientOk then ⟨.ok [], db, []⟩
  else
    match env.user with
    | none => ⟨.ok [], db, []⟩
    | some u =>
      let req1 := DbReq.selectBudgets u true
      let e1 := dbExec db req1
      match e1.1 with
      | .ok rows => ⟨.ok (rows.map rowToListedBudget), e1.2, [req1]⟩
      | .error e =>
        if e.code == "42703" then
          let req2 := DbReq.selectBudgets u false
          let e2 := dbExec e1.2 req2
          match e2.1 with
          | .ok rows => ⟨.ok (rows.map rowToListedBudget), e2.2, [req1, req2]⟩
          | .error f =>
              ⟨.error (.storageError ("Failed to fetch budgets: " ++ f.message)),
               e2.2, [req1, req2]⟩
        else
          ⟨.error (.storageError ("Failed to fetch budgets: " ++ e.message)),
           e1.2, [req1]⟩

/-- `getBudgetById` (lines 80-103): throws when the client or user is
missing; single-row select by `id` and `user_id`; any datastore error is
thrown wrapped; a null row returns null; otherwise the row is returned
with the computed `total_allocated` (its `categories` passed through
unchanged). -/
def getBudgetById (env : Env) (db : DB) (id : String) : OpResult (Option Budget) :=
  if !env.clientOk then
    ⟨.error (.clientError "Failed to create Supabase client"), db, []⟩
  else
    match env.user with
    | none => ⟨.error (.authError "Authentication required"), db, []⟩
    | some u =>
      let req := DbReq.selectById id u
      let e1 := dbExec db req
      match e1.1 with
      | .error e =>
          ⟨.error (.storageError ("Failed to fetch budget: " ++ e.message)),
           e1.2, [req]⟩
      | .ok rows =>
        match rows.head? with
        | none => ⟨.ok none, e1.2, [req]⟩
        | some row =>
            ⟨.ok (some { id := row.id, name := row.name, amount := row.amount,
                         start_date := row.start_date, end_date := row.end_date,
                         categories := row.categories,
                         total_allocated :=
                           some (calculateTotalAllocated (row.categories.getD [])) }),
             e1.2, [req]⟩

/-- `createBudget` (lines 108-162): strips `total_allocated`, adds
`user_id`; maps an empty-string `end_date` to null, rejects a falsy
`start_date` before any datastore call, collapses a null `end_date` to
`start_date`; inserts, retrying once without `categories` on error code
42703 or PGRST204; surfaces the retry's error if the retry fails. -/
def createBudget (env : Env) (db : DB) (input : CreateInput) :
    OpResult (Option BudgetRow) :=
  if !env.clientOk then
    ⟨.error (.clientError "Failed to create Supabase client"), db, []⟩
  else
    match env.user with
    | none => ⟨.error (.authError "Authentication required"), db, []⟩
    | some u =>
      let end1 : Option (Option String) :=
        if input.end_date == some (some "") then some none else input.end_date
      match input.start_date with
      | none =>
          ⟨.error (.validationError "Start date is required and cannot be empty."),
           db, []⟩
      | some s =>
        if s == "" then
          ⟨.error (.validationError "Start date is required and cannot be empty."),
           db, []⟩
        else
          let endFinal : String := match end1 with
            | some (some e) => e
            | _ => s
          let payload : InsertPayload :=
            { user_id := u, name := input.name, amount := input.amount,
              start_date := some s, end_date := some endFinal,
              categories := some input.categories, total_allocated := none }
          let req1 := DbReq.insert payload
          let e1 := dbExec db req1
          match e1.1 with
          | .ok rows => ⟨.ok rows.head?, e1.2, [req1]⟩
          | .error e =>
            if e.code == "42703" || e.code == "PGRST204" then
              let req2 := DbReq.insert { payload with categories := none }
              let e2 := dbExec e1.2 req2
              match e2.1 with
              | .ok rows => ⟨.ok rows.head?, e2.2, [req1, req2]⟩
              | .error f =>
                  ⟨.error (.storageError ("Error creating budget: " ++ f.message)),
                   e2.2, [req1, req2]⟩
            else
              ⟨.error (.storageError ("Error creating budget: " ++ e.message)),
               e1.2, [req1]⟩

/-- `updateBudget` (lines 167-225): strips `total_allocated`; maps an
empty-string `end_date` to null, rejects an empty-string `start_date`,
and when `end_date` is null-or-absent while `start_date` is supplied
(truthy) sets `end_date` to `start_date`; updates the row scoped to the
owner, retrying once without `categories` on error code 42703 or
PGRST204; surfaces the retry's error if the retry fails. -/
def updateBudget (env : Env) (db : DB) (id : String) (input : UpdateInput) :
    OpResult (Option BudgetRow) :=
  if !env.clientOk then
    ⟨.error (.clientError "Failed to create Supabase client"), db, []⟩
  else
    match env.user with
    | none => ⟨.error (.authError "Authentication required"), db, []⟩
    | some u =>
      let end1 : Option (Option String) :=
        if input.end_date == some (some "") then some none else input.end_date
      if input.start_date == some "" then
        ⟨.error (.validationError "Start date cannot be updated to be empty."),
         db, []⟩
      else
        let end2 : Option (Option String) :=
          match end1, input.start_date with
          | none, some s => some (some s)
          | some none, some s => some (some s)
          | e, _ => e
        let patch : UpdatePatch :=
          { name := input.name, amount := input.amount,
            start_date := input.start_date, end_date := end2,
            categories := input.categories, total_allocated := none }
        let req1 := DbReq.update id u patch
        let e1 := dbExec db req1
        match e1.1 with
        | .ok rows => ⟨.ok rows.head?, e1.2, [req1]⟩
        | .error e =>
          if e.code == "42703" || e.code == "PGRST204" then
            let req2 := DbReq.update id u { patch with categories := none }
            let e2 := dbExec e1.2 req2
            match e2.1 with
            | .ok rows => ⟨.ok rows.head?, e2.2, [req1, req2]⟩
            | .error f =>
                ⟨.error (.storageError ("Error updating budget: " ++ f.message)),
                 e2.2, [req1, req2]⟩
          else
            ⟨.error (.storageError ("Error updating budget: " ++ e.message)),
             e1.2, [req1]⟩

/-- `deleteBudget` (lines 230-250): throws when the client or user is
missing; issues one delete scoped to `id` and the owner; wraps a
datastore error; otherwise reports success. -/
def deleteBudget (env : Env) (db : DB) (id : String) : OpResult DeleteResult :=
  if !env.clientOk then
    ⟨.error (.clientError "Failed to create Supabase client"), db, []⟩
  else
    match env.user with
    | none => ⟨.error (.authError "Authentication required"), db, []⟩
    | some u =>
      let req := DbReq.delete id u
      let e1 := dbExec db req
      match e1.1 with
      | .error e =>
          ⟨.error (.storageError ("Failed to delete budget: " ++ e.message)),
           e1.2, [req]⟩
      | .ok _ => ⟨.ok { success := true }, e1.2, [req]⟩

/-! ## Concrete fixtures -/

/-- The parent-with-amount tree of the spec's regression note: a parent
carrying `amount = 9999` with two leaf children of 10 and 20. -/
def parentAmountTree : List BudgetCategory :=
  [.mk "p" "Parent" (some 9999) none
    [.mk "a" "A" (some 10) none [], .mk "b" "B" (some 20) none []]]

/-- A concrete empty datastore with the `categories` column present. -/
def emptyDb : DB :=
  { rows := [], hasCategoriesColumn := true, nextId := 0, script := [] }

/-- The category tree of the spec's end-to-end scenario: Flights 400, and
Hotel split into Deposit 150 and Balance 150 (total allocated 700). -/
def tripCategories : List BudgetCategory :=
  [.mk "f" "Flights" (some 400) none [],
   .mk "h" "Hotel" (some 300) none
     [.mk "d" "Deposit" (some 150) none [],
      .mk "bl" "Balance" (some 150) none []]]

/-- A one-row datastore: budget `b1` of user `u1` with distinct start and
end dates and the scenario category tree. -/
def dbOneTrip : DB :=
  { rows := [{ id := "b1", user_id := "u1", name := "Trip", amount := 1000,
               start_date := "2024-01-01", end_date := some "2024-03-01",
               categories := some tripCategories }],
    hasCategoriesColumn := true, nextId := 2, script := [] }

/-- An update input that supplies only `amount`. -/
def amountOnlyInput (a : Int) : UpdateInput :=
  ⟨none, some a, none, none, none, none⟩

/-- An update input that supplies only `start_date`. -/
def startOnlyInput (s : String) : UpdateInput :=
  ⟨none, none, some s, none, none, none⟩

/-! ## Helper lemmas -/

/-- The server total equals the spec's effective-allocation sum
(nested induction on the category tree). -/
theorem calculateTotalAllocated_eq_specEffectiveSum :
    ∀ cats : List BudgetCategory,
      calculateTotalAllocated cats = specEffectiveSum cats
  | [] => by simp [calculateTotalAllocated, specEffectiveSum]
  | .mk i n a c subs :: rest => by
      have h1 := calculateTotalAllocated_eq_specEffectiveSum subs
      have h2 := calculateTotalAllocated_eq_specEffectiveSum rest
      by_cases hs : subs.length > 0 <;>
        simp [calculateTotalAllocated, specEffectiveSum, specEffectiveAllocation,
          h1, h2, hs]

/-- The mutual list-sum equals the mapped sum. -/
theorem specEffectiveSum_eq_map_sum (cats : List BudgetCategory) :
    specEffectiveSum cats = (cats.map specEffectiveAllocation).sum := by
  induction cats with
  | nil => simp [specEffectiveSum]
  | cons c cs ih => simp [specEffectiveSum, ih]

/-! ## Claims -/

/-- C1: for every list of categories, the server-side
`calculateTotalAllocated` returns the sum of each category's effective
allocation: a category with non-empty subcategories contributes the sum of
its subcategories' effective allocations with its own `amount` excluded,
a category with empty subcategories contributes its `amount`, a missing or
non-numeric amount counting as 0. -/
theorem calculateTotalAllocated_is_sum_of_effective_allocations
    (cats : List BudgetCategory) :
    calculateTotalAllocated cats = (cats.map specEffectiveAllocation).sum := by
  rw [calculateTotalAllocated_eq_specEffectiveSum, specEffectiveSum_eq_map_sum]

/-- C2: the client-side total of `BudgetDetails`
(`budget-dashboard.tsx`) is NOT mirrored with the server-side
`calculateTotalAllocated`: on a parent with `amount = 9999` and leaf
children 10 and 20 the dashboard adds every node's own amount and returns
10029 while the server (and the `budget-menu.tsx` copy) return 30. -/
theorem dashboard_total_diverges_from_server :
    dashboardCalculateTotal parentAmountTree = 10029 ∧
    calculateTotalAllocated parentAmountTree = 30 ∧
    menuCalculateTotalAllocated parentAmountTree = 30 ∧
    dashboardCalculateTotal parentAmountTree ≠
      calculateTotalAllocated parentAmountTree := by
  refine ⟨?_, ?_, ?_, ?_⟩ <;>
    simp [parentAmountTree, dashboardCalculateTotal, calculateTotalAllocated,
      menuCalculateTotalAllocated]

/-- C3 counterexample: `getBudgets` with no resolvable owner does not fail
with an auth error — it returns the empty list (issuing no datastore
request). -/
theorem getBudgets_unauthenticated_returns_empty :
    (getBudgets ⟨true, none⟩ emptyDb).result = .ok [] ∧
    (getBudgets ⟨true, none⟩ emptyDb).trace = [] :=
  ⟨rfl, rfl⟩

/-- C3 amended: with no resolvable owner, `get`, `update` and `delete`
fail with the auth error and issue no datastore request, while `list`
returns an empty sequence, likewise issuing no datastore request. -/
theorem unauthenticated_ops_fail_without_write
    (db : DB) (id : String) (up : UpdateInput) :
    (getBudgets ⟨true, none⟩ db).result = .ok [] ∧
    (getBudgets ⟨true, none⟩ db).trace = [] ∧
    (getBudgetById ⟨true, none⟩ db id).result =
      .error (.authError "Authentication required") ∧
    (getBudgetById ⟨true, none⟩ db id).trace = [] ∧
    (updateBudget ⟨true, none⟩ db id up).result =
      .error (.authError "Authentication required") ∧
    (updateBudget ⟨true, none⟩ db id up).trace = [] ∧
    (deleteBudget ⟨true, none⟩ db id).result =
      .error (.authError "Authentication required") ∧
    (deleteBudget ⟨true, none⟩ db id).trace = [] :=
  ⟨rfl, rfl, rfl, rfl, rfl, rfl, rfl, rfl⟩

/-- C6: a create whose `start_date` is missing or empty fails with the
validation error and issues no datastore request at all. -/
theorem createBudget_empty_start_date_no_write
    (u : String) (db : DB) (input : CreateInput)
    (h : input.start_date = none ∨ input.start_date = some "") :
    (createBudget ⟨true, some u⟩ db input).result =
      .error (.validationError "Start date is required and cannot be empty.") ∧
    (createBudget ⟨true, some u⟩ db input).trace = [] := by
  rcases h with h | h <;> simp [createBudget, h]

/-- C6 witness at a concrete missing `start_date`. -/
theorem createBudget_empty_start_date_no_write_witness :
    (createBudget ⟨true, some "u1"⟩ emptyDb
        ⟨"Trip", 1000, none, none, [], none⟩).result =
      .error (.validationError "Start date is required and cannot be empty.") ∧
    (createBudget ⟨true, some "u1"⟩ emptyDb
        ⟨"Trip", 1000, none, none, [], none⟩).trace = [] :=
  createBudget_empty_start_date_no_write "u1" emptyDb
    ⟨"Trip", 1000, none, none, [], none⟩ (Or.inl rfl)

/-- C7: `get` on an id with no matching budget for the owner does not
return none — the single-row select reports its zero-rows error and the
operation throws the wrapped storage error. -/
theorem getBudgetById_not_found_throws :
    (getBudgetById ⟨true, some "u1"⟩ emptyDb "b1").result =
      .error (.storageError
        ("Failed to fetch budget: JSON object requested, multiple (or no) rows returned")) :=
  rfl

/-- C9: `delete` is idempotent — with no injected datastore failure it
reports success for any id, whether or not a matching budget exists, and
a second delete of the same id succeeds as well. -/
theorem deleteBudget_idempotent
    (u id : String) (db : DB) (h : db.script = []) :
    (deleteBudget ⟨true, some u⟩ db id).result = .ok ⟨true⟩ ∧
    (deleteBudget ⟨true, some u⟩
      (deleteBudget ⟨true, some u⟩ db id).db id).result = .ok ⟨true⟩ := by
  constructor <;> simp [deleteBudget, dbExec, dbExecCore, consumeScript, h]

/-- C9 witness: delete an existing budget, then delete it again. -/
theorem deleteBudget_idempotent_witness :
    (deleteBudget ⟨true, some "u1"⟩
        ⟨[⟨"b1", "u1", "Trip", 1000, "2024-01-01", some "2024-01-01", some []⟩],
         true, 2, []⟩ "b1").result = .ok ⟨true⟩ ∧
    (deleteBudget ⟨true, some "u1"⟩
      (deleteBudget ⟨true, some "u1"⟩
        ⟨[⟨"b1", "u1", "Trip", 1000, "2024-01-01", some "2024-01-01", some []⟩],
         true, 2, []⟩ "b1").db "b1").result = .ok ⟨true⟩ :=
  deleteBudget_idempotent "u1" "b1"
    ⟨[⟨"b1", "u1", "Trip", 1000, "2024-01-01", some "2024-01-01", some []⟩],
     true, 2, []⟩ rfl

/-- C10: every datastore request issued by a create or an update carries
no `total_allocated` field in its payload — the transient field is
stripped before the write. -/
theorem writes_never_carry_total_allocated
    (env : Env) (db : DB) (id : String) (input : CreateInput)
    (up : UpdateInput) :
    ((createBudget env db input).trace.all
        (fun r => r.payloadTotalAllocated == none)) = true ∧
    ((updateBudget env db id up).trace.all
        (fun r => r.payloadTotalAllocated == none)) = true := by
  constructor
  · unfold createBudget
    dsimp only
    repeat' split
    all_goals rfl
  · unfold updateBudget
    dsimp only
    repeat' split
    all_goals rfl

/-- Mapping a per-row rewrite through a row observer the rewrite does not
affect is the identity on the observed list. -/
theorem map_observe_rewrite {α : Type} (rows : List StoredBudget)
    (p : StoredBudget → Bool) (g : StoredBudget → StoredBudget)
    (f : StoredBudget → α) (hf : ∀ r, f (g r) = f r) :
    (rows.map (fun r => if p r then g r else r)).map f = rows.map f := by
  induction rows with
  | nil => rfl
  | cons r rs ih => by_cases hp : p r <;> simp [hp, ih, hf]

/-- C8 counterexample: an update whose partial data supplies only
`start_date` also changes the stored `end_date` (to the new start date), so
update does not change only the fields present in the partial data. -/
theorem update_start_only_changes_end_date :
    (updateBudget ⟨true, some "u1"⟩ dbOneTrip "b1"
        (startOnlyInput "2024-02-01")).db.rows.map
      (fun r => (r.start_date, r.end_date)) =
      [("2024-02-01", some "2024-02-01")] ∧
    dbOneTrip.rows.map (fun r => (r.start_date, r.end_date)) =
      [("2024-01-01", some "2024-03-01")] :=
  ⟨rfl, rfl⟩

/-- C8 amended: update replaces only the supplied fields — except that a
patch supplying `start_date` without `end_date` also sets `end_date` to
the new start date. With no injected datastore failure this holds for
EVERY partial input: the stored rows equal the original rows with
`applyPatch` applied to the matched rows, where the applied patch carries
exactly the supplied fields after the source's sanitization (empty-string
`end_date` becomes null, a null-or-absent `end_date` is coerced to a
supplied `start_date`, `categories` is dropped when the column is absent),
absent fields leaving the stored columns untouched; a patch reduced to a
null `end_date` with a matched row is rejected by the not-null constraint
and changes nothing. In particular an update supplying only `amount`
rewrites exactly the matched row's amount — the stored categories, and
hence every stored row's computed `total_allocated`, are unchanged — and
succeeds (is not rejected) for every new amount, even one below the
allocated total; a patch supplying only a non-empty `start_date` rewrites
the matched row's `start_date` and `end_date` together. -/
theorem update_replaces_only_supplied_fields
    (u id : String) (a : Int) (s : String)
    (rows : List StoredBudget) (hc : Bool) (n : Nat)
    (nm : Option String) (am : Option Int) (sd : Option String)
    (ed : Option (Option String)) (cats : Option (List BudgetCategory))
    (tot : Option Int)
    (hs : (s == "") = false) (hsd : (sd == some "") = false) :
    (updateBudget ⟨true, some u⟩ ⟨rows, hc, n, []⟩ id
        ⟨nm, am, sd, ed, cats, tot⟩).db.rows =
      (let e1 : Option (Option String) :=
        if ed == some (some "") then some none else ed
      let e2 : Option (Option String) :=
        match e1, sd with
        | none, some s0 => some (some s0)
        | some none, some s0 => some (some s0)
        | e, _ => e
      if e2 == some none &&
          !(rows.filter (fun r => r.id == id && r.user_id == u)).isEmpty then
        rows
      else
        rows.map (fun r =>
          if r.id == id && r.user_id == u then
            applyPatch r ⟨nm, am, sd, e2, if hc then cats else none, none⟩
          else r)) ∧
    (updateBudget ⟨true, some u⟩ ⟨rows, hc, n, []⟩ id (amountOnlyInput a)).db.rows =
      rows.map (fun r =>
        if r.id == id && r.user_id == u then { r with amount := a } else r) ∧
    ((updateBudget ⟨true, some u⟩ ⟨rows, hc, n, []⟩ id (amountOnlyInput a)).db.rows.map
        (fun r => r.categories)) = rows.map (fun r => r.categories) ∧
    ((updateBudget ⟨true, some u⟩ ⟨rows, hc, n, []⟩ id (amountOnlyInput a)).db.rows.map
        (fun r => calculateTotalAllocated (r.categories.getD []))) =
      rows.map (fun r => calculateTotalAllocated (r.categories.getD [])) ∧
    (updateBudget ⟨true, some u⟩ ⟨rows, hc, n, []⟩ id (amountOnlyInput a)).result =
      (match rows.filter (fun r => r.id == id && r.user_id == u) with
        | [r] => .ok (some (StoredBudget.toRow hc { r with amount := a }))
        | _ => .error (.storageError
            ("Error updating budget: " ++ pgrst116.message))) ∧
    (updateBudget ⟨true, some u⟩ ⟨rows, hc, n, []⟩ id
        (startOnlyInput s)).db.rows =
      rows.map (fun r =>
        if r.id == id && r.user_id == u then
          { r with start_date := s, end_date := some s } else r) := by
  have hcase : (ed = none ∨ ed = some none ∨ ed = some (some "")) ∨
      (∃ e, ed = some (some e) ∧ (e == "") = false) := by
    rcases ed with _ | ed1
    · exact Or.inl (Or.inl rfl)
    · rcases ed1 with _ | e
      · exact Or.inl (Or.inr (Or.inl rfl))
      · rcases hb : (e == "") with _ | _
        · exact Or.inr ⟨e, rfl, hb⟩
        · have : e = "" := by simpa using hb
          subst this
          exact Or.inl (Or.inr (Or.inr rfl))
  have hsdc : sd = none ∨ ∃ s0, sd = some s0 ∧ (s0 == "") = false := by
    rcases sd with _ | s0
    · exact Or.inl rfl
    · refine Or.inr ⟨s0, rfl, ?_⟩
      rcases hb : (s0 == "") with _ | _
      · rfl
      · have : s0 = "" := by simpa using hb
        subst this
        simp at hsd
  have h1 : (updateBudget ⟨true, some u⟩ ⟨rows, hc, n, []⟩ id
      (amountOnlyInput a)).db.rows =
      rows.map (fun r =>
        if r.id == id && r.user_id == u then { r with amount := a } else r) := by
    simp [updateBudget, amountOnlyInput, dbExec, dbExecCore, consumeScript, applyPatch]
    cases hf : List.filter (fun r => r.id == id && r.user_id == u) rows with
    | nil => simp [hf, pgrst116]
    | cons r rs =>
      cases rs with
      | nil => simp [hf]
      | cons r2 rs2 => simp [hf, pgrst116]
  refine ⟨?_, h1, ?_, ?_, ?_, ?_⟩
  · rcases hcase with (rfl | rfl | rfl) | ⟨e, rfl, he⟩ <;>
      rcases hsdc with rfl | ⟨s0, rfl, hs0⟩ <;>
        cases cats <;> cases hc <;>
        · cases hf : List.filter (fun r => r.id == id && r.user_id == u) rows with
          | nil =>
              simp [updateBudget, dbExec, dbExecCore, consumeScript,
                errSchemaCache, errNotNull, applyPatch, pgrst116, hf, *]
          | cons r rs =>
            cases rs with
            | nil =>
                simp [updateBudget, dbExec, dbExecCore, consumeScript,
                  errSchemaCache, errNotNull, applyPatch, pgrst116, hf, *]
            | cons r2 rs2 =>
                simp [updateBudget, dbExec, dbExecCore, consumeScript,
                  errSchemaCache, errNotNull, applyPatch, pgrst116, hf, *]
  · rw [h1]
    exact map_observe_rewrite rows _ _ _ (fun r => rfl)
  · rw [h1]
    exact map_observe_rewrite rows _ _ _ (fun r => rfl)
  · simp [updateBudget, amountOnlyInput, dbExec, dbExecCore, consumeScript, applyPatch]
    cases hf : List.filter (fun r => r.id == id && r.user_id == u) rows with
    | nil => simp [hf, pgrst116]
    | cons r rs =>
      cases rs with
      | nil => simp [hf, StoredBudget.toRow]
      | cons r2 rs2 => simp [hf, pgrst116]
  · simp [updateBudget, startOnlyInput, dbExec, dbExecCore, consumeScript, applyPatch, hs]
    cases hf : List.filter (fun r => r.id == id && r.user_id == u) rows with
    | nil => simp [hf, pgrst116]
    | cons r rs =>
      cases rs with
      | nil => simp [hf]
      | cons r2 rs2 => simp [hf, pgrst116]

/-- C8 witness: on the scenario budget, a name-only patch rewrites exactly
the name (dates, amount and categories untouched), and updating only
`amount` to 200 succeeds — even though 200 is below the allocated total —
changing nothing but the amount. -/
theorem update_replaces_only_supplied_fields_witness :
    (updateBudget ⟨true, some "u1"⟩ dbOneTrip "b1"
        ⟨some "Renamed", none, none, none, none, none⟩).db.rows =
      [⟨"b1", "u1", "Renamed", 1000, "2024-01-01", some "2024-03-01",
        some tripCategories⟩] ∧
    (updateBudget ⟨true, some "u1"⟩ dbOneTrip "b1" (amountOnlyInput 200)).db.rows =
      dbOneTrip.rows.map (fun r =>
        if r.id == "b1" && r.user_id == "u1" then { r with amount := 200 } else r) ∧
    (updateBudget ⟨true, some "u1"⟩ dbOneTrip "b1" (amountOnlyInput 200)).result =
      (match dbOneTrip.rows.filter (fun r => r.id == "b1" && r.user_id == "u1") with
        | [r] => .ok (some (StoredBudget.toRow true { r with amount := 200 }))
        | _ => .error (.storageError
            ("Error updating budget: " ++ pgrst116.message))) := by
  have h := update_replaces_only_supplied_fields "u1" "b1" 200 "2024-02-01"
    dbOneTrip.rows true 2 (some "Renamed") none none none none none rfl rfl
  exact ⟨h.1.trans rfl, h.2.1, h.2.2.2.2.1⟩


/-- `List.all` survives filtering. -/
theorem all_filter_of_all {α : Type} (l : List α) (p q : α → Bool)
    (h : l.all p = true) : (l.filter q).all p = true := by
  induction l with
  | nil => rfl
  | cons x xs ih =>
    simp only [List.all_cons, Bool.and_eq_true] at h
    cases hq : q x <;> simp [List.filter_cons, hq, h.1, ih h.2]

/-- `List.all` survives a guarded per-element rewrite that preserves the
predicate. -/
theorem all_map_if {α : Type} (l : List α) (p : α → Bool) (g : α → α)
    (q : α → Bool) (h : l.all q = true)
    (hg : ∀ x, q x = true → q (g x) = true) :
    (l.map (fun x => if p x then g x else x)).all q = true := by
  induction l with
  | nil => rfl
  | cons x xs ih =>
    simp only [List.all_cons, Bool.and_eq_true] at h
    by_cases hp : p x <;> simp [hp, h.1, hg x h.1, ih h.2]

/-- Pushing a projection through a guarded per-element rewrite. -/
theorem map_if_proj {α β : Type} (l : List α) (p : α → Bool) (g : α → α)
    (f : α → β) :
    (l.map (fun x => if p x then g x else x)).map f =
      l.map (fun x => if p x then f (g x) else f x) := by
  induction l with
  | nil => rfl
  | cons x xs ih => by_cases hp : p x <;> simp [hp, ih]

/-- Map-if over a list whose filter is empty changes nothing. -/
theorem map_if_of_filter_nil {α : Type} (p : α → Bool) (f : α → α)
    (l : List α) (h : l.filter p = []) :
    l.map (fun x => if p x then f x else x) = l := by
  induction l with
  | nil => rfl
  | cons x xs ih =>
    cases hx : p x
    · simp only [List.filter_cons, hx, Bool.false_eq_true, if_false] at h
      simp [hx, ih h]
    · simp [List.filter_cons, hx] at h

/-- The datastore core never stores a null `end_date`: inserts always carry
a string `end_date` or are rejected, and an update setting `end_date` to
null is rejected by the not-null constraint. -/
theorem dbExecCore_preserves_endSome (db1 : DB) (req : DbReq)
    (h : (db1.rows.all fun r => r.end_date.isSome) = true) :
    ((dbExecCore db1 req).2.rows.all fun r => r.end_date.isSome) = true := by
  cases req with
  | selectBudgets userId withCats =>
      simp only [dbExecCore]; split <;> exact h
  | selectById id userId =>
      simp only [dbExecCore]; split <;> exact h
  | insert p =>
      simp only [dbExecCore]
      split
      · exact h
      · split <;> simp_all
  | update id userId patch =>
      simp only [dbExecCore]
      split
      · exact h
      · split
        · exact h
        · rename_i hguard
          by_cases hend : (patch.end_date == some none) = true
          · have hfil : db1.rows.filter
                (fun r => r.id == id && r.user_id == userId) = [] := by
              rcases hf : db1.rows.filter
                  (fun r => r.id == id && r.user_id == userId) with _ | ⟨r, rs⟩
              · exact hf
              · exact absurd (by simp [hf, hend]) hguard
            have hrows : (db1.rows.map (fun r =>
                if r.id == id && r.user_id == userId then applyPatch r patch
                else r)).all (fun r => r.end_date.isSome) = true := by
              rw [map_if_of_filter_nil _ _ _ hfil]; exact h
            split <;> exact hrows
          · have hg : ∀ r : StoredBudget, (r.end_date.isSome) = true →
                ((applyPatch r patch).end_date.isSome) = true := by
              intro r hr
              unfold applyPatch
              rcases hpe : patch.end_date with _ | ⟨_ | s2⟩ <;> simp_all
            have hrows := all_map_if db1.rows
              (fun r => r.id == id && r.user_id == userId)
              (fun r => applyPatch r patch)
              (fun r => r.end_date.isSome) h hg
            split <;> exact hrows
  | delete id userId =>
      simp only [dbExecCore]
      exact all_filter_of_all _ _ _ h

/-- `dbExec` preserves the all-end-dates-present invariant. -/
theorem dbExec_preserves_endSome (db : DB) (req : DbReq)
    (h : (db.rows.all fun r => r.end_date.isSome) = true) :
    ((dbExec db req).2.rows.all fun r => r.end_date.isSome) = true := by
  unfold dbExec consumeScript
  rcases db with ⟨rows, hc, n, script⟩
  rcases script with _ | ⟨e, rest⟩
  · exact dbExecCore_preserves_endSome ⟨rows, hc, n, []⟩ req h
  · rcases e with _ | e0
    · exact dbExecCore_preserves_endSome ⟨rows, hc, n, rest⟩ req h
    · exact h

/-- `createBudget` preserves the all-end-dates-present invariant. -/
theorem createBudget_preserves_endSome (env : Env) (db : DB)
    (input : CreateInput)
    (h : (db.rows.all fun r => r.end_date.isSome) = true) :
    ((createBudget env db input).db.rows.all fun r => r.end_date.isSome) = true := by
  unfold createBudget
  dsimp only
  repeat' split
  all_goals first
    | exact h
    | exact dbExec_preserves_endSome _ _ h
    | exact dbExec_preserves_endSome _ _ (dbExec_preserves_endSome _ _ h)

/-- `updateBudget` preserves the all-end-dates-present invariant. -/
theorem updateBudget_preserves_endSome (env : Env) (db : DB) (id : String)
    (up : UpdateInput)
    (h : (db.rows.all fun r => r.end_date.isSome) = true) :
    ((updateBudget env db id up).db.rows.all fun r => r.end_date.isSome) = true := by
  unfold updateBudget
  dsimp only
  repeat' split
  all_goals first
    | exact h
    | exact dbExec_preserves_endSome _ _ h
    | exact dbExec_preserves_endSome _ _ (dbExec_preserves_endSome _ _ h)

/-- C4 counterexample: `update` with `end_date` omitted does not make the
persisted `end_date` equal the persisted `start_date` — updating only
`amount` on a budget whose stored dates differ leaves the stale `end_date`
in place. -/
theorem update_omitting_end_date_keeps_stale_end :
    (updateBudget ⟨true, some "u1"⟩ dbOneTrip "b1" (amountOnlyInput 500)).result =
      .ok (some ⟨"b1", "Trip", 500, "2024-01-01", some "2024-03-01",
        some tripCategories⟩) ∧
    ((updateBudget ⟨true, some "u1"⟩ dbOneTrip "b1"
        (amountOnlyInput 500)).db.rows.all
      (fun r => r.end_date == some r.start_date)) = false :=
  ⟨rfl, rfl⟩

/-- C4 amended: a create with `end_date` omitted, null or empty persists
`end_date` equal to the persisted `start_date`; an update does so whenever
the patch also supplies a (non-empty) `start_date`; an update supplying
neither date leaves every stored `end_date` unchanged; and `end_date` is
never stored as null — both operations preserve the all-end-dates-present
datastore invariant. -/
theorem end_date_collapses_to_start_date
    (u id s : String) (rows : List StoredBudget) (hc : Bool) (n : Nat)
    (nm : String) (am : Int) (ed : Option (Option String))
    (cats : List BudgetCategory) (tot : Option Int)
    (nm2 : Option String) (am2 : Option Int) (ed2 : Option (Option String))
    (cats2 : Option (List BudgetCategory)) (tot2 : Option Int)
    (nm3 : Option String) (am3 : Option Int)
    (cats3 : Option (List BudgetCategory)) (tot3 : Option Int)
    (env' : Env) (db' : DB) (input' : CreateInput) (up' : UpdateInput)
    (id' : String)
    (hs : (s == "") = false)
    (hend : ed = none ∨ ed = some none ∨ ed = some (some ""))
    (hend2 : ed2 = none ∨ ed2 = some none ∨ ed2 = some (some ""))
    (hnn : (db'.rows.all fun r => r.end_date.isSome) = true) :
    (createBudget ⟨true, some u⟩ ⟨rows, hc, n, []⟩
        ⟨nm, am, some s, ed, cats, tot⟩).result =
      .ok (some { id := "b" ++ toString n, name := nm, amount := am,
                  start_date := s, end_date := some s,
                  categories := if hc then some cats else none }) ∧
    (updateBudget ⟨true, some u⟩ ⟨rows, hc, n, []⟩ id
        ⟨nm2, am2, some s, ed2, cats2, tot2⟩).db.rows.map
      (fun r => (r.start_date, r.end_date)) =
      rows.map (fun r =>
        if r.id == id && r.user_id == u then (s, some s)
        else (r.start_date, r.end_date)) ∧
    (updateBudget ⟨true, some u⟩ ⟨rows, hc, n, []⟩ id
        ⟨nm3, am3, none, none, cats3, tot3⟩).db.rows.map
      (fun r => r.end_date) = rows.map (fun r => r.end_date) ∧
    ((createBudget env' db' input').db.rows.all
      fun r => r.end_date.isSome) = true ∧
    ((updateBudget env' db' id' up').db.rows.all
      fun r => r.end_date.isSome) = true := by
  refine ⟨?_, ?_, ?_,
    createBudget_preserves_endSome env' db' input' hnn,
    updateBudget_preserves_endSome env' db' id' up' hnn⟩
  · rcases hend with rfl | rfl | rfl <;> cases hc <;>
      simp [createBudget, dbExec, dbExecCore, consumeScript, hs,
        errSchemaCache, StoredBudget.toRow]
  · rcases hend2 with rfl | rfl | rfl <;> cases cats2 <;> cases hc <;>
    · simp [updateBudget, dbExec, dbExecCore, consumeScript, hs, errSchemaCache]
      cases hf : List.filter (fun r => r.id == id && r.user_id == u) rows with
      | nil =>
          simp [hf, pgrst116, applyPatch]
          intro a _
          by_cases hp : a.id = id ∧ a.user_id = u <;> simp [hp]
      | cons r rs =>
        cases rs with
        | nil =>
            simp [hf, applyPatch]
            intro a _
            by_cases hp : a.id = id ∧ a.user_id = u <;> simp [hp]
        | cons r2 rs2 =>
            simp [hf, pgrst116, applyPatch]
            intro a _
            by_cases hp : a.id = id ∧ a.user_id = u <;> simp [hp]
  · cases cats3 <;> cases hc <;>
    · simp [updateBudget, dbExec, dbExecCore, consumeScript, errSchemaCache]
      cases hf : List.filter (fun r => r.id == id && r.user_id == u) rows with
      | nil =>
          simp [hf, pgrst116, applyPatch]
          intro a _
          by_cases hp : a.id = id ∧ a.user_id = u <;> simp [hp]
      | cons r rs =>
        cases rs with
        | nil =>
            simp [hf, applyPatch]
            intro a _
            by_cases hp : a.id = id ∧ a.user_id = u <;> simp [hp]
        | cons r2 rs2 =>
            simp [hf, pgrst116, applyPatch]
            intro a _
            by_cases hp : a.id = id ∧ a.user_id = u <;> simp [hp]

/-- C4 witness: concrete instantiation — creating with an omitted
`end_date` persists it equal to `start_date`; updating with a new
`start_date` and empty `end_date` moves both dates; an amount-only update
leaves end dates unchanged; both operations keep all end dates present. -/
theorem end_date_collapses_to_start_date_witness :
    (createBudget ⟨true, some "u1"⟩ ⟨[], true, 0, []⟩
        ⟨"Trip", 1000, some "2024-01-01", none, [], none⟩).result =
      .ok (some { id := "b0", name := "Trip", amount := (1000 : Int),
                  start_date := "2024-01-01", end_date := some "2024-01-01",
                  categories := if true then
                    some ([] : List BudgetCategory) else none }) ∧
    (updateBudget ⟨true, some "u1"⟩ ⟨[], true, 0, []⟩ "b1"
        ⟨none, none, some "2024-01-01", none, none, none⟩).db.rows.map
      (fun r => (r.start_date, r.end_date)) =
      ([] : List StoredBudget).map (fun r =>
        if r.id == "b1" && r.user_id == "u1" then ("2024-01-01", some "2024-01-01")
        else (r.start_date, r.end_date)) ∧
    (updateBudget ⟨true, some "u1"⟩ ⟨[], true, 0, []⟩ "b1"
        ⟨none, none, none, none, none, none⟩).db.rows.map
      (fun r => r.end_date) = ([] : List StoredBudget).map (fun r => r.end_date) ∧
    ((createBudget ⟨true, some "u1"⟩ dbOneTrip
        ⟨"T2", 1, some "2024-05-01", none, [], none⟩).db.rows.all
      fun r => r.end_date.isSome) = true ∧
    ((updateBudget ⟨true, some "u1"⟩ dbOneTrip "b1"
        ⟨none, none, none, some none, none, none⟩).db.rows.all
      fun r => r.end_date.isSome) = true :=
  end_date_collapses_to_start_date "u1" "b1" "2024-01-01" [] true 0
    "Trip" 1000 none [] none
    none none none none none
    none none none none
    ⟨true, some "u1"⟩ dbOneTrip
    ⟨"T2", 1, some "2024-05-01", none, [], none⟩
    ⟨none, none, none, some none, none, none⟩ "b1"
    rfl (Or.inl rfl) (Or.inl rfl) rfl

/-- C5: when the datastore reports a missing `categories` column, each
operation retries exactly once with the categories field omitted (second
request differs from the first only by dropping `categories`); if the
retry also fails, the retry's error is surfaced; and a datastore error
whose code is not a missing-column code propagates (wrapped with the
operation's message prefix) with no retry — exactly one request is
issued. -/
theorem schema_mismatch_single_retry
    (u id s : String) (rows : List StoredBudget) (n : Nat) (hc : Bool)
    (e : PgError)
    (nm : String) (am : Int) (cats : List BudgetCategory) (tot : Option Int)
    (nm2 : Option String) (am2 : Option Int)
    (cats2 : List BudgetCategory) (tot2 : Option Int)
    (hs : (s == "") = false)
    (hga : e.code ≠ "42703") (hgb : e.code ≠ "PGRST204") :
    ((getBudgets ⟨true, some u⟩ ⟨rows, false, n, []⟩).trace =
        [.selectBudgets u true, .selectBudgets u false] ∧
      ∃ bs, (getBudgets ⟨true, some u⟩ ⟨rows, false, n, []⟩).result = .ok bs) ∧
    ((getBudgets ⟨true, some u⟩ ⟨rows, false, n, [none, some e]⟩).result =
        .error (.storageError ("Failed to fetch budgets: " ++ e.message)) ∧
      (getBudgets ⟨true, some u⟩ ⟨rows, false, n, [none, some e]⟩).trace =
        [.selectBudgets u true, .selectBudgets u false]) ∧
    ((getBudgets ⟨true, some u⟩ ⟨rows, hc, n, [some e]⟩).result =
        .error (.storageError ("Failed to fetch budgets: " ++ e.message)) ∧
      (getBudgets ⟨true, some u⟩ ⟨rows, hc, n, [some e]⟩).trace =
        [.selectBudgets u true]) ∧
    (∃ p, (createBudget ⟨true, some u⟩ ⟨rows, false, n, []⟩
          ⟨nm, am, some s, none, cats, tot⟩).trace =
        [.insert p, .insert { p with categories := none }] ∧
      p.categories = some cats ∧
      ∃ b, (createBudget ⟨true, some u⟩ ⟨rows, false, n, []⟩
          ⟨nm, am, some s, none, cats, tot⟩).result = .ok b) ∧
    ((createBudget ⟨true, some u⟩ ⟨rows, false, n, [none, some e]⟩
          ⟨nm, am, some s, none, cats, tot⟩).result =
        .error (.storageError ("Error creating budget: " ++ e.message)) ∧
      ∃ p, (createBudget ⟨true, some u⟩ ⟨rows, false, n, [none, some e]⟩
          ⟨nm, am, some s, none, cats, tot⟩).trace =
        [.insert p, .insert { p with categories := none }]) ∧
    ((createBudget ⟨true, some u⟩ ⟨rows, hc, n, [some e]⟩
          ⟨nm, am, some s, none, cats, tot⟩).result =
        .error (.storageError ("Error creating budget: " ++ e.message)) ∧
      ∃ p, (createBudget ⟨true, some u⟩ ⟨rows, hc, n, [some e]⟩
          ⟨nm, am, some s, none, cats, tot⟩).trace = [.insert p]) ∧
    (∃ p, (updateBudget ⟨true, some u⟩ ⟨rows, false, n, []⟩ id
          ⟨nm2, am2, none, none, some cats2, tot2⟩).trace =
        [.update id u p, .update id u { p with categories := none }] ∧
      p.categories = some cats2) ∧
    ((updateBudget ⟨true, some u⟩ ⟨rows, false, n, [none, some e]⟩ id
          ⟨nm2, am2, none, none, some cats2, tot2⟩).result =
        .error (.storageError ("Error updating budget: " ++ e.message)) ∧
      ∃ p, (updateBudget ⟨true, some u⟩ ⟨rows, false, n, [none, some e]⟩ id
          ⟨nm2, am2, none, none, some cats2, tot2⟩).trace =
        [.update id u p, .update id u { p with categories := none }]) ∧
    ((updateBudget ⟨true, some u⟩ ⟨rows, hc, n, [some e]⟩ id
          ⟨nm2, am2, none, none, some cats2, tot2⟩).result =
        .error (.storageError ("Error updating budget: " ++ e.message)) ∧
      ∃ p, (updateBudget ⟨true, some u⟩ ⟨rows, hc, n, [some e]⟩ id
          ⟨nm2, am2, none, none, some cats2, tot2⟩).trace = [.update id u p]) := by
  have h1 : (e.code == "42703") = false := by
    simp [hga]
  have h2 : (e.code == "PGRST204") = false := by
    simp [hgb]
  refine ⟨⟨rfl, ⟨_, rfl⟩⟩, ?_, ?_, ?_, ?_, ?_, ?_, ?_, ?_⟩
  · constructor <;>
      simp [getBudgets, dbExec, dbExecCore, consumeScript, errUndefinedColumn]
  · constructor <;>
      simp [getBudgets, dbExec, dbExecCore, consumeScript, h1]
  · refine ⟨⟨u, nm, am, some s, some s, some cats, none⟩, ?_, rfl,
      ⟨some ⟨"b" ++ toString n, nm, am, s, some s, none⟩, ?_⟩⟩ <;>
      simp [createBudget, dbExec, dbExecCore, consumeScript, hs, errSchemaCache,
        StoredBudget.toRow]
  · constructor
    · simp [createBudget, dbExec, dbExecCore, consumeScript, hs, errSchemaCache]
    · refine ⟨⟨u, nm, am, some s, some s, some cats, none⟩, ?_⟩
      simp [createBudget, dbExec, dbExecCore, consumeScript, hs, errSchemaCache]
  · constructor
    · simp [createBudget, dbExec, dbExecCore, consumeScript, hs, h1, h2]
    · refine ⟨⟨u, nm, am, some s, some s, some cats, none⟩, ?_⟩
      simp [createBudget, dbExec, dbExecCore, consumeScript, hs, h1, h2]
  · refine ⟨⟨nm2, am2, none, none, some cats2, none⟩, ?_, rfl⟩
    simp [updateBudget, dbExec, dbExecCore, consumeScript, errSchemaCache]
    cases hf : List.filter (fun r => r.id == id && r.user_id == u) rows with
    | nil => simp [hf, pgrst116]
    | cons r rs =>
      cases rs with
      | nil => simp [hf]
      | cons r2 rs2 => simp [hf, pgrst116]
  · constructor
    · simp [updateBudget, dbExec, dbExecCore, consumeScript, errSchemaCache]
    · refine ⟨⟨nm2, am2, none, none, some cats2, none⟩, ?_⟩
      simp [updateBudget, dbExec, dbExecCore, consumeScript, errSchemaCache]
  · constructor
    · simp [updateBudget, dbExec, dbExecCore, consumeScript, h1, h2]
    · refine ⟨⟨nm2, am2, none, none, some cats2, none⟩, ?_⟩
      simp [updateBudget, dbExec, dbExecCore, consumeScript, h1, h2]

/-- C5 witness: with a missing-column first response and an injected
connection failure on the retry, the retry's error is surfaced after
exactly the two select requests. -/
theorem schema_mismatch_single_retry_witness :
    (getBudgets ⟨true, some "u1"⟩
        ⟨[], false, 0, [none, some ⟨"08006", "connection failure"⟩]⟩).result =
      .error (.storageError ("Failed to fetch budgets: " ++ "connection failure")) ∧
    (getBudgets ⟨true, some "u1"⟩
        ⟨[], false, 0, [none, some ⟨"08006", "connection failure"⟩]⟩).trace =
      [.selectBudgets "u1" true, .selectBudgets "u1" false] :=
  (schema_mismatch_single_retry "u1" "b1" "2024-01-01" [] 0 true
      ⟨"08006", "connection failure"⟩ "Trip" 1000 [] none none none [] none
      rfl (by decide) (by decide)).2.1
